import Mathlib

/-!
Verification development for the pattern-based error classifier and the
RAG response pipeline of the ai-devops-idp service.

The Python sources embedded here are `ai-agent/log_analyzer.py` and
`ai-agent/rag_chain.py`.  Pure functions are translated directly; the two
I/O boundaries (the runbook directory listing and the reasoning-engine
invocation) are passed in as explicit parameters (a list of
filename/content pairs, and an `Except`-valued invocation result).

Python `re` matching (only the fragment of regex syntax that the fixed
pattern registry uses: case-insensitive literals, alternation, single
character classes and greedy stars of single character classes) is
implemented as a backtracking matcher with Python priority (leftmost
alternative first, greedy star with backtracking).  Python `json.loads`
is implemented as a recursive-descent parser of strict JSON (plus
NaN/Infinity, which Python accepts); `json.dumps` for the classification
lists is implemented with Python's default and `indent=2` layouts.
Machine-level caveats that the claims do not touch: `str.lower` is
modelled on ASCII, `\u` escapes outside the basic plane and non-ASCII
`ensure_ascii` output use the surrogate formula.  Relevance scores
(Python floats obtained as quotients of small integers with a common
denominator per query) are modelled as exact rationals, which induce the
same comparisons.

All definitions are fuel- or structurally recursive so that concrete
inputs evaluate inside the kernel.
-/

/-! ## Character and string helpers (Python semantics) -/

/-- Python's whitespace class `\s` (ASCII part): space, tab, newline,
vertical tab, form feed, carriage return. -/
def pyIsSpace (c : Char) : Bool :=
  c = ' ' || c = '\t' || c = '\n' || c = '\x0b' || c = '\x0c' || c = '\r'

/-- ASCII lower-casing, as used by `re.IGNORECASE` and `str.lower` on the
ASCII inputs relevant here. -/
def lowerChar (c : Char) : Char :=
  if 'A' ≤ c ∧ c ≤ 'Z' then Char.ofNat (c.toNat + 32) else c

/-- `leadsWith pre cs` is true when `pre` is a prefix of `cs`
(Python `str.startswith`). -/
def leadsWith : List Char → List Char → Bool
  | [], _ => true
  | _ :: _, [] => false
  | p :: ps, c :: cs => p == c && leadsWith ps cs

/-- Python `str.endswith`. -/
def tailsWith (suf cs : List Char) : Bool :=
  leadsWith suf.reverse cs.reverse

/-- Drop leading Python whitespace. -/
def dropWs (cs : List Char) : List Char := cs.dropWhile pyIsSpace

/-- Python `str.strip()` on a character list. -/
def stripL (cs : List Char) : List Char :=
  ((dropWs cs).reverse.dropWhile pyIsSpace).reverse

/-- Python `str.strip()`. -/
def pyStrip (s : String) : String := ⟨stripL s.data⟩

/-- Python slicing `s[:n]` (character counted). -/
def strTake (s : String) (n : Nat) : String := ⟨s.data.take n⟩

/-- Python slicing `s[n:]` (character counted). -/
def strDrop (s : String) (n : Nat) : String := ⟨s.data.drop n⟩

/-- Contiguous substring test on character lists. -/
def containsL (needle : List Char) : List Char → Bool
  | [] => needle.isEmpty
  | c :: cs => leadsWith needle (c :: cs) || containsL needle cs

/-- Python `needle in hay` for strings (contiguous substring test). -/
def isSubstrOf (needle hay : String) : Bool :=
  containsL needle.data hay.data

/-- Python `str.split()` with no separator: whitespace-separated words,
no empty pieces.  Each step consumes at least one character, so fuel
`length + 1` never runs out. -/
def splitWsF : Nat → List Char → List (List Char)
  | 0, _ => []
  | _ + 1, [] => []
  | fuel + 1, c :: cs =>
      if pyIsSpace c then splitWsF fuel cs
      else (c :: cs.takeWhile (fun d => !pyIsSpace d))
        :: splitWsF fuel (cs.dropWhile (fun d => !pyIsSpace d))

/-- Python `str.split()` with no separator. -/
def pySplitWs (s : String) : List String :=
  (splitWsF (s.length + 1) s.data).map (fun cs => ⟨cs⟩)

/-- Python `str.lower` (ASCII fragment). -/
def pyLower (s : String) : String := ⟨s.data.map lowerChar⟩

/-! ## The regex fragment used by the pattern registry

A pattern is an alternation (`|`) of sequences; each sequence element is
either a single-character test or a greedy star of a single-character
test.  This covers every regex in `ERROR_PATTERNS`:
literals (case-insensitive), `\s*`, `.*`, `\d*`, `[1-9]`. -/

inductive Tok where
  /-- one character matching the test -/
  | lit (p : Char → Bool)
  /-- greedy `*` over characters matching the test -/
  | star (p : Char → Bool)

/-- One alternative: a sequence of tokens. -/
abbrev Alt := List Tok

/-- A whole pattern: ordered alternatives, tried left to right. -/
abbrev Pat := List Alt

/-- Backtracking matcher with Python priority, with explicit fuel.
`matchSeqF fuel ts cs` returns the length of the prioritized match of the
sequence `ts` at the start of `cs` (greedy stars, backtracking one
character at a time).  Every recursive call shrinks `cs.length +
ts.length`, so fuel `cs.length + ts.length + 1` never runs out. -/
def matchSeqF : Nat → List Tok → List Char → Option Nat
  | _, [], _ => some 0
  | 0, _ :: _, _ => none
  | fuel + 1, Tok.lit p :: ts, cs =>
      match cs with
      | [] => none
      | c :: cs' =>
          if p c then (matchSeqF fuel ts cs').map (· + 1) else none
  | fuel + 1, Tok.star p :: ts, cs =>
      match cs with
      | c :: cs' =>
          if p c then
            match matchSeqF fuel (Tok.star p :: ts) cs' with
            | some n => some (n + 1)
            | none => matchSeqF fuel ts cs
          else matchSeqF fuel ts cs
      | [] => matchSeqF fuel ts []

/-- Prioritized match length of a token sequence at the head of `cs`. -/
def matchSeq (ts : List Tok) (cs : List Char) : Option Nat :=
  matchSeqF (cs.length + ts.length + 1) ts cs

/-- Try the alternatives of a pattern left to right at the head of `cs`
(Python alternation priority). -/
def matchPat (pat : Pat) (cs : List Char) : Option Nat :=
  pat.findSome? (fun alt => matchSeq alt cs)

/-- `re.findall` scan: leftmost non-overlapping matches; a zero-width
match still advances the scan position by one (no registry pattern can
match the empty string, every alternative starts with a `lit`). -/
def findallF (pat : Pat) : Nat → List Char → List (List Char)
  | 0, _ => []
  | fuel + 1, cs =>
      match matchPat pat cs with
      | some n =>
          cs.take n :: findallF pat fuel (cs.drop (max n 1))
      | none =>
          match cs with
          | [] => []
          | _ :: cs' => findallF pat fuel cs'

/-- `pattern.findall(text)` for a registry pattern. -/
def patFindall (pat : Pat) (text : String) : List String :=
  (findallF pat (text.length + 1) text.data).map (fun cs => ⟨cs⟩)

/-! ## The pattern registry (`ERROR_PATTERNS` in `log_analyzer.py`)

Categories and severities are carried as their enum `.value` strings,
exactly what `classify_errors` puts in its result dicts. -/

/-- A case-insensitive single character literal. -/
def ci (c : Char) : Tok := Tok.lit (fun d => lowerChar d == lowerChar c)

/-- A case-insensitive literal string as a token sequence. -/
def lits (s : String) : List Tok := s.data.map ci

/-- `\s*` -/
def wsStar : Tok := Tok.star pyIsSpace

/-- `.*` (anything but a newline, greedy) -/
def dotStar : Tok := Tok.star (fun c => c != '\n')

/-- `\d*` -/
def digitStar : Tok := Tok.star (fun c => c.isDigit)

/-- `[1-9]` -/
def oneToNine : Tok := Tok.lit (fun c => '1' ≤ c && c ≤ '9')

structure PatternEntry where
  pattern : Pat
  category : String
  severity : String
  hint : String

def ERROR_PATTERNS : List PatternEntry := [
  { pattern := [lits "OOMKilled"],
    category := "OOMKilled", severity := "CRITICAL",
    hint := "Container exceeded memory limits and was killed by the kernel OOM killer." },
  { pattern := [lits "CrashLoopBackOff"],
    category := "CrashLoopBackOff", severity := "CRITICAL",
    hint := "Container is crashing repeatedly. Check exit code and last termination reason." },
  { pattern := [lits "ImagePullBackOff", lits "ErrImagePull", lits "ImagePullError"],
    category := "ImagePullBackOff", severity := "HIGH",
    hint := "Unable to pull container image. Check image name/tag, registry auth, and network." },
  { pattern := [lits "CreateContainerConfigError"],
    category := "CreateContainerConfigError", severity := "HIGH",
    hint := "Container configuration error. Usually a missing Secret, ConfigMap, or volume mount." },
  { pattern := [lits "Readiness" ++ [wsStar] ++ lits "probe" ++ [wsStar] ++ lits "failed",
                lits "readinessProbe"],
    category := "ReadinessProbeFailure", severity := "MEDIUM",
    hint := "Readiness probe failing — pod won\x27t receive traffic. Check health endpoint and port." },
  { pattern := [lits "Liveness" ++ [wsStar] ++ lits "probe" ++ [wsStar] ++ lits "failed",
                lits "livenessProbe"],
    category := "LivenessProbeFailure", severity := "HIGH",
    hint := "Liveness probe failing — kubelet will restart the container. Check health endpoint." },
  { pattern := [lits "exceeded" ++ [wsStar] ++ lits "quota",
                lits "ResourceQuota",
                lits "forbidden" ++ [dotStar] ++ lits "quota"],
    category := "ResourceQuotaExceeded", severity := "MEDIUM",
    hint := "Resource quota exceeded. Request more quota or reduce resource requests." },
  { pattern := [lits "forbidden", lits "Unauthorized", lits "403", lits "RBAC"],
    category := "PermissionDenied", severity := "HIGH",
    hint := "Permission denied. Check RBAC roles, service account, and cluster role bindings." },
  { pattern := [lits "connection" ++ [wsStar] ++ lits "refused",
                lits "dial" ++ [wsStar] ++ lits "tcp" ++ [dotStar] ++ lits "refused",
                lits "timeout",
                lits "ETIMEDOUT",
                lits "network" ++ [wsStar] ++ lits "unreachable"],
    category := "NetworkError", severity := "HIGH",
    hint := "Network connectivity issue. Check service endpoints, DNS, security groups, and NACLs." },
  { pattern := [lits "state" ++ [wsStar] ++ lits "lock",
                lits "lock" ++ [wsStar] ++ lits "ID",
                lits "ConditionalCheckFailedException" ++ [dotStar] ++ lits "terraform"],
    category := "TerraformStateLock", severity := "MEDIUM",
    hint := "Terraform state is locked. Check DynamoDB lock table or use force-unlock if safe." },
  { pattern := [lits "provider" ++ [dotStar] ++ lits "error",
                lits "NoCredentialProviders",
                lits "ExpiredToken",
                lits "InvalidClientTokenId"],
    category := "TerraformProviderError", severity := "HIGH",
    hint := "Terraform provider authentication failure. Check AWS credentials and assume-role config." },
  { pattern := [lits "exit" ++ [wsStar] ++ lits "code" ++ [wsStar] ++ [oneToNine, digitStar],
                lits "Process" ++ [wsStar] ++ lits "completed" ++ [wsStar] ++ lits "with"
                  ++ [wsStar] ++ lits "exit" ++ [wsStar] ++ lits "code" ++ [wsStar] ++ [oneToNine]],
    category := "CICDPipelineFailure", severity := "MEDIUM",
    hint := "Build step failed with a non-zero exit code. Check the failing command output." },
  { pattern := [lits "permission" ++ [wsStar] ++ lits "denied", lits "EACCES"],
    category := "PermissionDenied", severity := "MEDIUM",
    hint := "File/system permission denied. Check file ownership and process privileges." }
]

/-! ## The classifier (`classify_errors` in `log_analyzer.py`) -/

/-- `matched_text` is either a bare string (exactly one match) or a list
(up to the first three matches). -/
inductive MatchedText where
  | one (s : String)
  | many (l : List String)
deriving DecidableEq

structure Classification where
  category : String
  severity : String
  hint : String
  matched_text : MatchedText
  match_count : Nat
deriving DecidableEq

/-- Build the classification dict appended for a matching registry entry:
`matches[0] if len(matches) == 1 else matches[:3]`, and the match count. -/
def mkClassification (e : PatternEntry) (ms : List String) : Classification :=
  { category := e.category, severity := e.severity, hint := e.hint,
    matched_text := match ms with
      | [m] => MatchedText.one m
      | _ => MatchedText.many (ms.take 3),
    match_count := ms.length }

/-- The registry scan loop of `classify_errors`: registry order, one
classification per not-yet-seen category with a non-empty match list. -/
def collectAux (text : String) : List PatternEntry → List String → List Classification
  | [], _ => []
  | e :: rest, seen =>
      let ms := patFindall e.pattern text
      if !ms.isEmpty && !seen.contains e.category then
        mkClassification e ms :: collectAux text rest (e.category :: seen)
      else
        collectAux text rest seen

/-- Classifications in registry-encounter order, before the severity sort. -/
def collectClassifications (text : String) : List Classification :=
  collectAux text ERROR_PATTERNS []

/-- The `severity_order` dict with its `.get(x, 5)` default. -/
def severity_order (s : String) : Nat :=
  if s = "CRITICAL" then 0
  else if s = "HIGH" then 1
  else if s = "MEDIUM" then 2
  else if s = "LOW" then 3
  else if s = "INFO" then 4
  else 5

/-- The stable ascending sort key comparison used by `list.sort`. -/
def sevLe (a b : Classification) : Bool :=
  decide (severity_order a.severity ≤ severity_order b.severity)

/-- `classify_errors`: scan, then stable sort by severity rank. -/
def classify_errors (text : String) : List Classification :=
  (collectClassifications text).mergeSort sevLe

example : (collectClassifications "Container OOMKilled due to memory limit").map (·.category)
    = ["OOMKilled"] := by decide

example : (collectClassifications "Pod OOMKilled and Readiness probe failed badly").map
      (fun c => (c.category, c.severity))
    = [("OOMKilled", "CRITICAL"), ("ReadinessProbeFailure", "MEDIUM")] := by decide

example : collectClassifications "" = [] := by decide

example : (collectClassifications "forbidden permission denied").map
      (fun c => (c.category, c.severity))
    = [("PermissionDenied", "HIGH")] := by decide

example : (collectClassifications "exit code 137").map (fun c => (c.category, c.match_count))
    = [("CICDPipelineFailure", 1)] := by decide

example : (collectClassifications "OOMKilled OOMKilled").map (·.matched_text)
    = [MatchedText.many ["OOMKilled", "OOMKilled"]] := by decide

/-! ## Runbook loading and keyword search (`rag_chain.py`) -/

structure Runbook where
  filename : String
  title : String
  content : String
deriving DecidableEq

/-- Python `content.split("\n")[0]`: the text before the first newline. -/
def firstLine (s : String) : String := ⟨s.data.takeWhile (fun c => c ≠ '\n')⟩

/-- One cache entry of `load_runbooks`:
`title = content.split("\n")[0].replace("#", "").strip()`. -/
def mkRunbook (filename content : String) : Runbook :=
  { filename := filename,
    title := pyStrip ⟨(firstLine content).data.filter (fun c => c ≠ '#')⟩,
    content := content }

/-- `load_runbooks` over the directory listing, abstracted as a list of
(filename, content) pairs (the globbing and per-file error skipping are
I/O and stay outside the model). -/
def load_runbooks (files : List (String × String)) : List Runbook :=
  files.map (fun pr => mkRunbook pr.1 pr.2)

structure RunbookMatch where
  title : String
  filename : String
  relevance_score : ℚ
  summary : String
deriving DecidableEq

/-- `set(query.lower().split())`, as a duplicate-free list (only
membership and cardinality are used, which are order-independent). -/
def queryWords (query : String) : List String :=
  (pySplitWs (pyLower query)).dedup

/-- Keyword-overlap count of one runbook:
`sum(1 for word in query_words if word in content_lower)`. -/
def overlapCount (query : String) (rb : Runbook) : Nat :=
  (queryWords query).countP (fun w => isSubstrOf w (pyLower rb.content))

/-- The scored entry built for a runbook with a positive overlap. -/
def mkMatch (query : String) (rb : Runbook) : RunbookMatch :=
  { title := rb.title, filename := rb.filename,
    relevance_score :=
      min ((overlapCount query rb : ℚ) / (max (queryWords query).length 1 : ℚ)) 1,
    summary := strTake rb.content 200 ++ "..." }

/-- The `scored` list of `search_runbooks`, in corpus (load) order. -/
def scoredCandidates (runbooks : List Runbook) (query : String) : List RunbookMatch :=
  runbooks.filterMap (fun rb =>
    if 0 < overlapCount query rb then some (mkMatch query rb) else none)

/-- The stable descending comparison of `scored.sort(key=..., reverse=True)`. -/
def scoreGe (a b : RunbookMatch) : Bool :=
  decide (b.relevance_score ≤ a.relevance_score)

/-- `search_runbooks(query, top_k)` over the loaded corpus. -/
def search_runbooks (runbooks : List Runbook) (query : String) (top_k : Nat) :
    List RunbookMatch :=
  if runbooks.isEmpty then []
  else ((scoredCandidates runbooks query).mergeSort scoreGe).take top_k

/-! ## JSON values and Python `json.loads`

Values carry numbers as their lexemes (the claims never compare numbers
numerically); objects keep insertion order with later duplicate keys
overwriting in place, as Python dicts do. -/

inductive Json where
  | null
  | bool (b : Bool)
  | num (lexeme : String)
  | str (s : String)
  | arr (items : List Json)
  | obj (fields : List (String × Json))

/-- The brace characters, kept out of string literals. -/
def lbrace : Char := Char.ofNat 123

def rbrace : Char := Char.ofNat 125

/-- JSON inter-token whitespace accepted by `json.loads`. -/
def jsonWs (c : Char) : Bool := c = ' ' || c = '\t' || c = '\n' || c = '\r'

def skipWs (cs : List Char) : List Char := cs.dropWhile jsonWs

/-- Match an exact keyword prefix, returning the rest. -/
def expectLits : List Char → List Char → Option (List Char)
  | [], cs => some cs
  | _ :: _, [] => none
  | k :: ks, c :: cs => if k = c then expectLits ks cs else none

def hexVal (c : Char) : Option Nat :=
  if '0' ≤ c ∧ c ≤ '9' then some (c.toNat - 48)
  else if 'a' ≤ c ∧ c ≤ 'f' then some (c.toNat - 87)
  else if 'A' ≤ c ∧ c ≤ 'F' then some (c.toNat - 55)
  else none

/-- JSON string body after the opening quote; fuel bounds the scan. -/
def parseStrBody : Nat → List Char → Option (List Char × List Char)
  | 0, _ => none
  | fuel + 1, cs =>
      match cs with
      | [] => none
      | '"' :: rest => some ([], rest)
      | '\\' :: e :: rest =>
          let push (c : Char) (r : List Char) : Option (List Char × List Char) :=
            (parseStrBody fuel r).map (fun pr => (c :: pr.1, pr.2))
          match e with
          | '"' => push '"' rest
          | '\\' => push '\\' rest
          | '/' => push '/' rest
          | 'b' => push '\x08' rest
          | 'f' => push '\x0c' rest
          | 'n' => push '\n' rest
          | 'r' => push '\r' rest
          | 't' => push '\t' rest
          | 'u' =>
              match rest with
              | h1 :: h2 :: h3 :: h4 :: rest' =>
                  match hexVal h1, hexVal h2, hexVal h3, hexVal h4 with
                  | some a, some b, some c, some d =>
                      push (Char.ofNat (((a * 16 + b) * 16 + c) * 16 + d)) rest'
                  | _, _, _, _ => none
              | _ => none
          | _ => none
      | '\\' :: [] => none
      | c :: rest =>
          if c.toNat < 32 then none
          else (parseStrBody fuel rest).map (fun pr => (c :: pr.1, pr.2))

/-- Digit run. -/
def takeDigits (cs : List Char) : List Char × List Char :=
  (cs.takeWhile Char.isDigit, cs.dropWhile Char.isDigit)

/-- JSON number lexeme after an optional leading minus was peeled:
`int [frac] [exp]` with the strict leading-zero rule. -/
def parseNumTail (cs : List Char) : Option (List Char × List Char) :=
  match cs with
  | [] => none
  | c :: rest =>
      if c = '0' then
        some ([c], rest)
      else if c.isDigit then
        let d := takeDigits rest
        some (c :: d.1, d.2)
      else none

def parseFrac (cs : List Char) : List Char × List Char :=
  match cs with
  | '.' :: rest =>
      let d := takeDigits rest
      if d.1.isEmpty then ([], cs) else ('.' :: d.1, d.2)
  | _ => ([], cs)

def parseExp (cs : List Char) : List Char × List Char :=
  match cs with
  | e :: rest =>
      if e = 'e' ∨ e = 'E' then
        match rest with
        | s :: rest' =>
            if s = '+' ∨ s = '-' then
              let d := takeDigits rest'
              if d.1.isEmpty then ([], cs) else (e :: s :: d.1, d.2)
            else
              let d := takeDigits rest
              if d.1.isEmpty then ([], cs) else (e :: d.1, d.2)
        | [] => ([], cs)
      else ([], cs)
  | [] => ([], cs)

/-- A complete JSON number (with optional minus), returning its lexeme. -/
def parseNumber (cs : List Char) : Option (List Char × List Char) :=
  let core (neg : Bool) (body : List Char) : Option (List Char × List Char) :=
    match parseNumTail body with
    | some (intPart, rest1) =>
        let f := parseFrac rest1
        let e := parseExp f.2
        some ((if neg then ['-'] else []) ++ intPart ++ f.1 ++ e.1, e.2)
    | none => none
  match cs with
  | '-' :: body => core true body
  | _ => core false cs

/-- Update a reversed accumulator of key/value pairs the way a Python dict
insert does: overwrite in place when the key exists, else prepend. -/
def insertKV (acc : List (String × Json)) (k : String) (v : Json) :
    List (String × Json) :=
  if acc.any (fun pr => pr.1 = k) then
    acc.map (fun pr => if pr.1 = k then (k, v) else pr)
  else (k, v) :: acc

mutual

/-- One JSON value (Python `json.loads` grammar, including the
`NaN`/`Infinity`/`-Infinity` extensions Python accepts). -/
def parseVal : Nat → List Char → Option (Json × List Char)
  | 0, _ => none
  | fuel + 1, cs =>
      match skipWs cs with
      | [] => none
      | c :: rest =>
          if c = '"' then
            (parseStrBody (rest.length + 1) rest).map
              (fun pr => (Json.str ⟨pr.1⟩, pr.2))
          else if c = lbrace then
            parseObjItems fuel rest true []
          else if c = '[' then
            parseArrItems fuel rest true []
          else if c = 'n' then
            (expectLits ['u', 'l', 'l'] rest).map (fun r => (Json.null, r))
          else if c = 't' then
            (expectLits ['r', 'u', 'e'] rest).map (fun r => (Json.bool true, r))
          else if c = 'f' then
            (expectLits ['a', 'l', 's', 'e'] rest).map (fun r => (Json.bool false, r))
          else if c = 'N' then
            (expectLits ['a', 'N'] rest).map (fun r => (Json.num "NaN", r))
          else if c = 'I' then
            (expectLits ['n', 'f', 'i', 'n', 'i', 't', 'y'] rest).map
              (fun r => (Json.num "Infinity", r))
          else if c = '-' ∧ leadsWith ['I'] rest then
            (expectLits ['I', 'n', 'f', 'i', 'n', 'i', 't', 'y'] rest).map
              (fun r => (Json.num "-Infinity", r))
          else if c = '-' ∨ c.isDigit then
            (parseNumber (c :: rest)).map (fun pr => (Json.num ⟨pr.1⟩, pr.2))
          else none

/-- Array items; `first` is true right after `[`. -/
def parseArrItems : Nat → List Char → Bool → List Json → Option (Json × List Char)
  | 0, _, _, _ => none
  | fuel + 1, cs, first, acc =>
      match skipWs cs with
      | [] => none
      | c :: rest =>
          if c = ']' ∧ first then some (Json.arr acc.reverse, rest)
          else
            match parseVal fuel (c :: rest) with
            | none => none
            | some (v, rest1) =>
                match skipWs rest1 with
                | ',' :: rest2 => parseArrItems fuel rest2 false (v :: acc)
                | ']' :: rest2 => some (Json.arr (v :: acc).reverse, rest2)
                | _ => none

/-- Object items with Python's duplicate-key handling (later value wins,
position of first insertion kept); `first` is true right after the brace. -/
def parseObjItems : Nat → List Char → Bool → List (String × Json) →
    Option (Json × List Char)
  | 0, _, _, _ => none
  | fuel + 1, cs, first, acc =>
      match skipWs cs with
      | [] => none
      | c :: rest =>
          if c = rbrace ∧ first then some (Json.obj acc.reverse, rest)
          else if c = '"' then
            match parseStrBody (rest.length + 1) rest with
            | none => none
            | some (key, rest1) =>
                match skipWs rest1 with
                | ':' :: rest2 =>
                    match parseVal fuel rest2 with
                    | none => none
                    | some (v, rest3) =>
                        let acc' := insertKV acc ⟨key⟩ v
                        match skipWs rest3 with
                        | ',' :: rest4 => parseObjItems fuel rest4 false acc'
                        | c' :: rest4 =>
                            if c' = rbrace then some (Json.obj acc'.reverse, rest4)
                            else none
                        | [] => none
                | _ => none
          else none

end

/-- Python `json.loads`: one value, nothing but whitespace after it. -/
def jsonDecode (s : String) : Option Json :=
  match parseVal (2 * s.length + 4) s.data with
  | some (v, rest) => if (skipWs rest).isEmpty then some v else none
  | none => none

/-! ## Python `json.dumps` for classification lists

`analyze_devops_issue`'s mock and fallback explanations embed
`json.dumps(classifications or [], indent=2)` and
`json.dumps(classifications or [])`; the classification dicts have the
fixed shape produced by `classify_errors`, so the dumper is specialized
to that shape (string values, a string-or-string-list, and an int). -/

def toHexDigit (n : Nat) : Char :=
  if n < 10 then Char.ofNat (48 + n) else Char.ofNat (87 + (n - 10))

def toHex4 (n : Nat) : List Char :=
  [toHexDigit (n / 4096 % 16), toHexDigit (n / 256 % 16),
   toHexDigit (n / 16 % 16), toHexDigit (n % 16)]

/-- `json.dumps` character escaping with `ensure_ascii=True`: everything
outside `0x20`–`0x7e` becomes a `\u` escape (surrogate pairs beyond the
basic plane). -/
def pyJsonEscapeChar (c : Char) : List Char :=
  if c = '"' then ['\\', '"']
  else if c = '\\' then ['\\', '\\']
  else if c = '\n' then ['\\', 'n']
  else if c = '\t' then ['\\', 't']
  else if c = '\r' then ['\\', 'r']
  else if c = '\x08' then ['\\', 'b']
  else if c = '\x0c' then ['\\', 'f']
  else if c.toNat < 32 ∨ 126 < c.toNat then
    if c.toNat < 65536 then '\\' :: 'u' :: toHex4 c.toNat
    else
      let v := c.toNat - 65536
      ('\\' :: 'u' :: toHex4 (55296 + v / 1024)) ++ ('\\' :: 'u' :: toHex4 (56320 + v % 1024))
  else [c]

/-- A JSON string literal as `json.dumps` renders it. -/
def pyJsonStr (s : String) : String :=
  ⟨'"' :: (s.data.flatMap pyJsonEscapeChar) ++ ['"']⟩

/-- `matched_text` rendered compactly (default separators `", "`/`": "`). -/
def dumpMTCompact : MatchedText → String
  | MatchedText.one s => pyJsonStr s
  | MatchedText.many [] => "[]"
  | MatchedText.many l => "[" ++ String.intercalate ", " (l.map pyJsonStr) ++ "]"

/-- One classification dict rendered compactly. -/
def dumpClsCompact (c : Classification) : String :=
  "\x7b\"category\": " ++ pyJsonStr c.category
    ++ ", \"severity\": " ++ pyJsonStr c.severity
    ++ ", \"hint\": " ++ pyJsonStr c.hint
    ++ ", \"matched_text\": " ++ dumpMTCompact c.matched_text
    ++ ", \"match_count\": " ++ toString c.match_count ++ "\x7d"

/-- `json.dumps(classifications or [])`. -/
def pyDumpsCls (cs : List Classification) : String :=
  match cs with
  | [] => "[]"
  | _ => "[" ++ String.intercalate ", " (cs.map dumpClsCompact) ++ "]"

/-- `matched_text` under `indent=2` at nesting level 2 (item separator
becomes `",\n"`, elements indented six spaces). -/
def dumpMTIndent : MatchedText → String
  | MatchedText.one s => pyJsonStr s
  | MatchedText.many [] => "[]"
  | MatchedText.many l =>
      "[\n" ++ String.intercalate ",\n" (l.map (fun s => "      " ++ pyJsonStr s))
        ++ "\n    ]"

/-- One classification dict under `indent=2` at nesting level 1. -/
def dumpClsIndent (c : Classification) : String :=
  "\x7b\n    \"category\": " ++ pyJsonStr c.category
    ++ ",\n    \"severity\": " ++ pyJsonStr c.severity
    ++ ",\n    \"hint\": " ++ pyJsonStr c.hint
    ++ ",\n    \"matched_text\": " ++ dumpMTIndent c.matched_text
    ++ ",\n    \"match_count\": " ++ toString c.match_count ++ "\n  \x7d"

/-- `json.dumps(classifications or [], indent=2)`. -/
def pyDumpsClsIndent2 (cs : List Classification) : String :=
  match cs with
  | [] => "[]"
  | _ => "[\n" ++ String.intercalate ",\n" (cs.map (fun c => "  " ++ dumpClsIndent c)) ++ "\n]"

/-! ## Response synthesis and normalization (`rag_chain.py`) -/

/-- `classifications[0][...] if classifications else "MEDIUM"` (the mock
path's `.get("severity", "MEDIUM")` agrees: classifier dicts always carry
the key). -/
def headSeverity : List Classification → String
  | [] => "MEDIUM"
  | c :: _ => c.severity

/-- Same selection for the category, defaulting to `"Unknown"`. -/
def headCategory : List Classification → String
  | [] => "Unknown"
  | c :: _ => c.category

def fixCommandJson (command description risk : String) : Json :=
  Json.obj [("command", Json.str command), ("description", Json.str description),
            ("risk_level", Json.str risk)]

/-- `_generate_mock_response`. -/
def mockResponse (error_context : String) (classifications : List Classification)
    (runbooks : List RunbookMatch) : Json :=
  Json.obj [
    ("root_cause",
      Json.str ("[MOCK] Detected " ++ headCategory classifications ++ " error pattern")),
    ("severity", Json.str (headSeverity classifications)),
    ("error_category", Json.str (headCategory classifications)),
    ("explanation",
      Json.str ("[MOCK MODE — No GOOGLE_API_KEY set]\nDetected error patterns: "
        ++ pyDumpsClsIndent2 classifications
        ++ "\n\nOriginal error:\n" ++ strTake error_context 500)),
    ("fix_commands", Json.arr [
      fixCommandJson "kubectl describe pod <pod-name> -n <namespace>"
        "Get detailed pod information including events and conditions" "LOW",
      fixCommandJson "kubectl logs <pod-name> -n <namespace> --previous"
        "Check logs from the previous crashed container instance" "LOW"]),
    ("prevention_tips", Json.arr [
      Json.str "Set proper resource requests and limits for all containers",
      Json.str "Configure health probes with appropriate initialDelaySeconds"]),
    ("related_runbooks", Json.arr (runbooks.map (fun rb => Json.str rb.filename)))]

/-- `_generate_fallback_response`. -/
def fallbackResponse (error_msg : String) (classifications : List Classification)
    (runbooks : List RunbookMatch) : Json :=
  Json.obj [
    ("root_cause", Json.str "LLM analysis failed — see pre-classified errors below"),
    ("severity", Json.str (headSeverity classifications)),
    ("error_category", Json.str (headCategory classifications)),
    ("explanation",
      Json.str ("The AI model could not be reached (" ++ error_msg
        ++ "). However, pattern-based analysis detected: " ++ pyDumpsCls classifications)),
    ("fix_commands", Json.arr [
      fixCommandJson "kubectl get events -n <namespace> --sort-by=\x27.lastTimestamp\x27"
        "Check recent events in the namespace for clues" "LOW"]),
    ("prevention_tips", Json.arr [Json.str "Ensure GOOGLE_API_KEY is set and valid"]),
    ("related_runbooks", Json.arr (runbooks.map (fun rb => Json.str rb.filename)))]

/-- The code-fence cleanup of `_parse_llm_response` on a character list:
strip, drop a leading "```json" or "```", drop a trailing "```", strip. -/
def cleanL (cs : List Char) : List Char :=
  let s1 := stripL cs
  let s2 := if leadsWith "```json".data s1 then s1.drop 7 else s1
  let s3 := if leadsWith "```".data s2 then s2.drop 3 else s2
  let s4 := if tailsWith "```".data s3 then s3.take (s3.length - 3) else s3
  stripL s4

def cleanResponse (raw : String) : String := ⟨cleanL raw.data⟩

/-- `str(type(x).__name__)` as it appears in the `AttributeError` raised
by `parsed.setdefault` when the parsed value is not a dict. -/
def pyTypeName : Json → String
  | Json.null => "NoneType"
  | Json.bool _ => "bool"
  | Json.num lx => if lx.data.all (fun c => c.isDigit || c = '-') then "int" else "float"
  | Json.str _ => "str"
  | Json.arr _ => "list"
  | Json.obj _ => "dict"

/-- `str(e)` for the `AttributeError` escaping `_parse_llm_response`. -/
def attrErrMsg (v : Json) : String :=
  "\x27" ++ pyTypeName v ++ "\x27 object has no attribute \x27setdefault\x27"

def hasKey (kvs : List (String × Json)) (k : String) : Bool :=
  kvs.any (fun pr => pr.1 = k)

/-- Python `dict.setdefault`: append the pair at the end when the key is
absent, leave the dict unchanged otherwise. -/
def setdefaultKV (kvs : List (String × Json)) (k : String) (v : Json) :
    List (String × Json) :=
  if hasKey kvs k then kvs else kvs ++ [(k, v)]

/-- The seven `parsed.setdefault(...)` calls, in program order. -/
def applyDefaults (raw : String) (runbooks : List RunbookMatch)
    (kvs : List (String × Json)) : List (String × Json) :=
  let kvs := setdefaultKV kvs "root_cause" (Json.str "Unable to determine root cause")
  let kvs := setdefaultKV kvs "severity" (Json.str "MEDIUM")
  let kvs := setdefaultKV kvs "error_category" (Json.str "Unknown")
  let kvs := setdefaultKV kvs "explanation" (Json.str raw)
  let kvs := setdefaultKV kvs "fix_commands" (Json.arr [])
  let kvs := setdefaultKV kvs "prevention_tips" (Json.arr [])
  setdefaultKV kvs "related_runbooks"
    (Json.arr (runbooks.map (fun rb => Json.str rb.filename)))

/-- The fixed-shape record of the `json.JSONDecodeError` branch. -/
def jsonErrorRecord (raw : String) (runbooks : List RunbookMatch) : Json :=
  Json.obj [
    ("root_cause", Json.str "See explanation"),
    ("severity", Json.str "MEDIUM"),
    ("error_category", Json.str "Unknown"),
    ("explanation", Json.str raw),
    ("fix_commands", Json.arr []),
    ("prevention_tips", Json.arr []),
    ("related_runbooks", Json.arr (runbooks.map (fun rb => Json.str rb.filename)))]

/-- `_parse_llm_response`: clean, `json.loads`, backfill defaults; a
decode failure yields the fixed-shape record, a decoded non-dict makes
`setdefault` raise an `AttributeError` (modelled as `Except.error`). -/
def parseLLMResponse (raw : String) (runbooks : List RunbookMatch) :
    Except String Json :=
  match jsonDecode (cleanResponse raw) with
  | some (Json.obj kvs) => Except.ok (Json.obj (applyDefaults raw runbooks kvs))
  | some v => Except.error (attrErrMsg v)
  | none => Except.ok (jsonErrorRecord raw runbooks)

/-- `analyze_devops_issue`.  The loaded runbook corpus is a parameter (the
process-wide cache), the credential check is the boolean, and the
reasoning-engine invocation result is an `Except`: `Except.error`
models `chat.invoke` raising, which the outer handler turns into the
fallback response — as it also does for an `AttributeError` escaping
`_parse_llm_response`. -/
def analyze_devops_issue (corpus : List Runbook) (error_context : String)
    (classifications : List Classification) (hasApiKey : Bool)
    (llmResult : Except String String) : Json :=
  let matching_runbooks := search_runbooks corpus error_context 3
  if hasApiKey then
    match llmResult with
    | Except.ok text =>
        match parseLLMResponse text matching_runbooks with
        | Except.ok r => r
        | Except.error e => fallbackResponse e classifications matching_runbooks
    | Except.error e => fallbackResponse e classifications matching_runbooks
  else
    mockResponse error_context classifications matching_runbooks

/-- Python dict field access on a decoded record. -/
def getField (j : Json) (k : String) : Option Json :=
  match j with
  | Json.obj kvs => (kvs.find? (fun pr => pr.1 = k)).map (fun pr => pr.2)
  | _ => none

/-- The `root_cause` string of a normalization outcome, when present. -/
def rootCauseOf (r : Except String Json) : Option String :=
  match r with
  | Except.ok j =>
      match getField j "root_cause" with
      | some (Json.str s) => some s
      | _ => none
  | Except.error _ => none

/-! ## Shared lemmas -/

theorem contains_iff_mem {l : List String} {a : String} :
    l.contains a = true ↔ a ∈ l := by
  simp [List.contains_iff_exists_mem_beq]

theorem sevLe_trans : ∀ a b c : Classification, sevLe a b → sevLe b c → sevLe a c := by
  intro a b c hab hbc
  simp only [sevLe, decide_eq_true_eq] at *
  omega

theorem sevLe_total : ∀ a b : Classification, sevLe a b || sevLe b a := by
  intro a b
  simp only [sevLe, Bool.or_eq_true, decide_eq_true_eq]
  omega

theorem scoreGe_trans : ∀ a b c : RunbookMatch, scoreGe a b → scoreGe b c → scoreGe a c := by
  intro a b c hab hbc
  simp only [scoreGe, decide_eq_true_eq] at *
  exact le_trans hbc hab

theorem scoreGe_total : ∀ a b : RunbookMatch, scoreGe a b || scoreGe b a := by
  intro a b
  simp only [scoreGe, Bool.or_eq_true, decide_eq_true_eq]
  exact le_total b.relevance_score a.relevance_score

/-- A stable sort leaves every equivalence class of the sort key in its
original order: filtering by a predicate that forces `le` both ways
commutes with `mergeSort`. -/
theorem filter_mergeSort_stable {α : Type} (le : α → α → Bool) (p : α → Bool)
    (htrans : ∀ a b c, le a b → le b c → le a c)
    (htotal : ∀ a b, le a b || le b a)
    (hp : ∀ a b, p a → p b → le a b) (l : List α) :
    (l.mergeSort le).filter p = l.filter p := by
  have hpw : (l.filter p).Pairwise (fun a b => le a b) := by
    apply List.pairwise_of_forall_mem_list
    intro a ha b hb
    exact hp a b (List.of_mem_filter ha) (List.of_mem_filter hb)
  have hsub : List.Sublist (l.filter p) (l.mergeSort le) :=
    List.sublist_mergeSort htrans htotal hpw (List.filter_sublist l)
  have hsub2 : List.Sublist (l.filter p) ((l.mergeSort le).filter p) := by
    have h2 := hsub.filter p
    rwa [List.filter_eq_self.mpr (fun a ha => List.of_mem_filter ha)] at h2
  have hperm : List.Perm ((l.mergeSort le).filter p) (l.filter p) :=
    (List.mergeSort_perm l le).filter p
  exact (hsub2.eq_of_length hperm.length_eq.symm).symm

theorem collectAux_category_not_seen (text : String) :
    ∀ (pats : List PatternEntry) (seen : List String),
      ∀ c ∈ collectAux text pats seen, c.category ∉ seen := by
  intro pats
  induction pats with
  | nil => intro seen c hc; simp [collectAux] at hc
  | cons e rest ih =>
      intro seen c hc
      simp only [collectAux] at hc
      by_cases hcond :
          (!(patFindall e.pattern text).isEmpty && !seen.contains e.category) = true
      · rw [if_pos hcond] at hc
        rcases List.mem_cons.mp hc with hceq | htail
        · subst hceq
          simp only [Bool.and_eq_true, Bool.not_eq_true'] at hcond
          intro hmem
          have := contains_iff_mem.mpr hmem
          simp only [mkClassification] at this
          rw [hcond.2] at this
          cases this
        · exact fun hmem => ih (e.category :: seen) c htail (List.mem_cons_of_mem _ hmem)
      · rw [if_neg hcond] at hc
        exact ih seen c hc

theorem collectAux_find (text : String) :
    ∀ (pats : List PatternEntry) (seen : List String),
      ∀ c ∈ collectAux text pats seen,
        ∃ e, pats.find?
            (fun e => e.category == c.category && !(patFindall e.pattern text).isEmpty)
            = some e
          ∧ c = mkClassification e (patFindall e.pattern text) := by
  intro pats
  induction pats with
  | nil => intro seen c hc; simp [collectAux] at hc
  | cons e rest ih =>
      intro seen c hc
      simp only [collectAux] at hc
      by_cases hcond :
          (!(patFindall e.pattern text).isEmpty && !seen.contains e.category) = true
      · rw [if_pos hcond] at hc
        simp only [Bool.and_eq_true, Bool.not_eq_true'] at hcond
        rcases List.mem_cons.mp hc with hceq | htail
        · refine ⟨e, ?_, hceq⟩
          rw [List.find?_cons_of_pos]
          subst hceq
          simp [mkClassification, hcond.1]
        · have hne : c.category ≠ e.category := by
            have := collectAux_category_not_seen text rest (e.category :: seen) c htail
            exact fun h => this (h ▸ List.mem_cons_self _ _)
          obtain ⟨e', hfind, hmk⟩ := ih (e.category :: seen) c htail
          refine ⟨e', ?_, hmk⟩
          rw [List.find?_cons_of_neg, hfind]
          simp [hne.symm]
      · rw [if_neg hcond] at hc
        simp only [Bool.and_eq_true, Bool.not_eq_true', not_and, Bool.not_eq_false]
          at hcond
        obtain ⟨e', hfind, hmk⟩ := ih seen c hc
        have hnotseen : c.category ∉ seen := collectAux_category_not_seen text rest seen c hc
        refine ⟨e', ?_, hmk⟩
        rw [List.find?_cons_of_neg, hfind]
        intro hpred
        simp only [Bool.and_eq_true, beq_iff_eq, Bool.not_eq_true'] at hpred
        have hmemseen := hcond hpred.2
        rw [hpred.1] at hmemseen
        exact hnotseen (contains_iff_mem.mp hmemseen)

theorem collectAux_categories_nodup (text : String) :
    ∀ (pats : List PatternEntry) (seen : List String),
      ((collectAux text pats seen).map (fun c => c.category)).Nodup := by
  intro pats
  induction pats with
  | nil => intro seen; simp [collectAux]
  | cons e rest ih =>
      intro seen
      simp only [collectAux]
      by_cases hcond :
          (!(patFindall e.pattern text).isEmpty && !seen.contains e.category) = true
      · rw [if_pos hcond]
        simp only [List.map_cons, List.nodup_cons]
        constructor
        · intro hmem
          obtain ⟨c, hcmem, hceq⟩ := List.mem_map.mp hmem
          have := collectAux_category_not_seen text rest (e.category :: seen) c hcmem
          exact this (by simp [hceq, mkClassification, List.mem_cons])
        · exact ih (e.category :: seen)
      · rw [if_neg hcond]
        exact ih seen

/-- The list of stored excerpts, whether the code kept a bare string or a
list. -/
def excerpts : MatchedText → List String
  | MatchedText.one s => [s]
  | MatchedText.many l => l

theorem excerpts_mkClassification (e : PatternEntry) (ms : List String) :
    excerpts (mkClassification e ms).matched_text = ms.take 3 := by
  rcases ms with _ | ⟨m, _ | ⟨b, t⟩⟩ <;> rfl

/-- Sorting a one-element scan result is the identity. -/
theorem classify_errors_singleton (t : String) (c : Classification)
    (h : collectClassifications t = [c]) : classify_errors t = [c] := by
  simp [classify_errors, h]

/-! ## C1 -/

/-- C1: for every input text the classification list is sorted ascending
by severity rank under the code's rank map (CRITICAL=0, HIGH=1, MEDIUM=2,
LOW=3, INFO=4, every other severity string ranked last with 5), and
entries of equal rank keep their registry-encounter order
(`collectClassifications` is the scan in registry order): the sort is
stable. -/
theorem c1_classify_sorted_stable (text : String) :
    (classify_errors text).Pairwise
      (fun a b => severity_order a.severity ≤ severity_order b.severity) ∧
    (∀ r : Nat,
      (classify_errors text).filter (fun c => severity_order c.severity == r)
        = (collectClassifications text).filter
            (fun c => severity_order c.severity == r)) ∧
    severity_order "CRITICAL" = 0 ∧ severity_order "HIGH" = 1 ∧
    severity_order "MEDIUM" = 2 ∧ severity_order "LOW" = 3 ∧
    severity_order "INFO" = 4 ∧
    (∀ s : String,
      s ∈ ["CRITICAL", "HIGH", "MEDIUM", "LOW", "INFO"] ∨ severity_order s = 5) := by
  refine ⟨?_, ?_, rfl, rfl, rfl, rfl, rfl, ?_⟩
  · have h := List.sorted_mergeSort sevLe_trans sevLe_total (collectClassifications text)
    exact h.imp (fun hab => by simpa [sevLe, decide_eq_true_eq] using hab)
  · intro r
    refine filter_mergeSort_stable sevLe _ sevLe_trans sevLe_total ?_ _
    intro a b ha hb
    simp only [beq_iff_eq] at ha hb
    simp [sevLe, ha, hb]
  · intro s
    simp only [severity_order]
    split_ifs with h1 h2 h3 h4 h5 <;> simp_all

/-! ## C2 -/

/-- C2: `classify_errors` never returns two classifications with the same
category, and each classification's severity and hint come from the
first entry of `ERROR_PATTERNS` whose detector matches the text and
whose category is the classification's category (first signature for a
category wins). -/
theorem c2_classify_unique_category_first_wins (text : String) :
    ((classify_errors text).map (fun c => c.category)).Nodup ∧
    ∀ c ∈ classify_errors text,
      ∃ e, ERROR_PATTERNS.find?
          (fun e => e.category == c.category && !(patFindall e.pattern text).isEmpty)
          = some e
        ∧ c.severity = e.severity ∧ c.hint = e.hint := by
  constructor
  · have hperm : List.Perm (classify_errors text) (collectClassifications text) :=
      List.mergeSort_perm _ _
    exact ((hperm.map _).nodup_iff).mpr (collectAux_categories_nodup text ERROR_PATTERNS [])
  · intro c hc
    simp only [classify_errors, List.mem_mergeSort] at hc
    obtain ⟨e, hfind, hmk⟩ := collectAux_find text ERROR_PATTERNS [] c hc
    exact ⟨e, hfind, by rw [hmk]; rfl, by rw [hmk]; rfl⟩

/-- Witness for C2: "forbidden permission denied" is matched by both
PermissionDenied signatures; the unique classification for that category
carries the first (HIGH) entry's data. -/
theorem c2_witness :
    (⟨"PermissionDenied", "HIGH",
        "Permission denied. Check RBAC roles, service account, and cluster role bindings.",
        MatchedText.one "forbidden", 1⟩ : Classification)
        ∈ classify_errors "forbidden permission denied" ∧
    ∃ e, ERROR_PATTERNS.find?
        (fun e => e.category == "PermissionDenied"
          && !(patFindall e.pattern "forbidden permission denied").isEmpty)
        = some e
      ∧ "HIGH" = e.severity
      ∧ "Permission denied. Check RBAC roles, service account, and cluster role bindings."
          = e.hint := by
  have hmem : (⟨"PermissionDenied", "HIGH",
      "Permission denied. Check RBAC roles, service account, and cluster role bindings.",
      MatchedText.one "forbidden", 1⟩ : Classification)
      ∈ classify_errors "forbidden permission denied" := by
    have hcol : collectClassifications "forbidden permission denied"
        = [⟨"PermissionDenied", "HIGH",
            "Permission denied. Check RBAC roles, service account, and cluster role bindings.",
            MatchedText.one "forbidden", 1⟩] := by decide
    rw [classify_errors_singleton _ _ hcol]
    exact List.mem_singleton.mpr rfl
  exact ⟨hmem, (c2_classify_unique_category_first_wins "forbidden permission denied").2 _ hmem⟩

/-! ## C8 -/

/-- C8 counterexample: on "OOMKilled OOMKilled" the single classification
stores the two matched excerpts verbatim — they are equal, so the stored
excerpts are not distinct as the claim states. -/
theorem c8_counterexample :
    (classify_errors "OOMKilled OOMKilled").map (fun c => excerpts c.matched_text)
      = [["OOMKilled", "OOMKilled"]]
    ∧ ¬ (["OOMKilled", "OOMKilled"] : List String).Nodup := by
  constructor
  · have hcol : collectClassifications "OOMKilled OOMKilled"
        = [⟨"OOMKilled", "CRITICAL",
            "Container exceeded memory limits and was killed by the kernel OOM killer.",
            MatchedText.many ["OOMKilled", "OOMKilled"], 2⟩] := by decide
    rw [classify_errors_singleton _ _ hcol]
    rfl
  · decide

/-- C8 (amended): for every text, each returned classification stores the
first `min 3 n` matched excerpts in match order (they are not
deduplicated, and a single match is stored as a bare string), where `n`
is its detector's total match count, and `match_count` equals that total
count. -/
theorem c8_excerpts_and_count (text : String) :
    ∀ c ∈ classify_errors text,
      ∃ e, ERROR_PATTERNS.find?
          (fun e => e.category == c.category && !(patFindall e.pattern text).isEmpty)
          = some e
        ∧ excerpts c.matched_text = (patFindall e.pattern text).take 3
        ∧ c.match_count = (patFindall e.pattern text).length := by
  intro c hc
  simp only [classify_errors, List.mem_mergeSort] at hc
  obtain ⟨e, hfind, hmk⟩ := collectAux_find text ERROR_PATTERNS [] c hc
  exact ⟨e, hfind, by rw [hmk]; exact excerpts_mkClassification _ _, by rw [hmk]; rfl⟩

/-- Witness for C8 at "exit code 137 exit code 2": the CI/CD signature
matches twice, both excerpts are kept in match order and the count is 2. -/
theorem c8_witness :
    (⟨"CICDPipelineFailure", "MEDIUM",
        "Build step failed with a non-zero exit code. Check the failing command output.",
        MatchedText.many ["exit code 137", "exit code 2"], 2⟩ : Classification)
        ∈ classify_errors "exit code 137 exit code 2" ∧
    ∃ e, ERROR_PATTERNS.find?
        (fun e => e.category == "CICDPipelineFailure"
          && !(patFindall e.pattern "exit code 137 exit code 2").isEmpty)
        = some e
      ∧ excerpts (MatchedText.many ["exit code 137", "exit code 2"])
          = (patFindall e.pattern "exit code 137 exit code 2").take 3
      ∧ 2 = (patFindall e.pattern "exit code 137 exit code 2").length := by
  have hcol : collectClassifications "exit code 137 exit code 2"
      = [⟨"CICDPipelineFailure", "MEDIUM",
          "Build step failed with a non-zero exit code. Check the failing command output.",
          MatchedText.many ["exit code 137", "exit code 2"], 2⟩] := by decide
  have hmem : (⟨"CICDPipelineFailure", "MEDIUM",
      "Build step failed with a non-zero exit code. Check the failing command output.",
      MatchedText.many ["exit code 137", "exit code 2"], 2⟩ : Classification)
      ∈ classify_errors "exit code 137 exit code 2" := by
    rw [classify_errors_singleton _ _ hcol]
    exact List.mem_singleton.mpr rfl
  exact ⟨hmem, c8_excerpts_and_count "exit code 137 exit code 2" _ hmem⟩

/-! ## C7 -/

/-- C7: for every query and `top_k`, `search_runbooks` returns at most
`top_k` entries, sorted descending by relevance score with score ties
left in corpus (load) order, each entry derived from a corpus document
with score = (distinct lowercased query words found in the document) /
(distinct query words), capped at 1, and no zero-score entry appears. -/
theorem c7_search_spec (corpus : List Runbook) (query : String) (top_k : Nat) :
    (search_runbooks corpus query top_k).length ≤ top_k ∧
    (search_runbooks corpus query top_k).Pairwise
      (fun a b => b.relevance_score ≤ a.relevance_score) ∧
    (∀ m ∈ search_runbooks corpus query top_k, ∃ rb ∈ corpus,
        0 < overlapCount query rb ∧
        m = mkMatch query rb ∧
        m.relevance_score
          = min ((overlapCount query rb : ℚ) / ((queryWords query).length : ℚ)) 1 ∧
        0 < m.relevance_score) ∧
    (∀ s : ℚ, List.Sublist
        ((search_runbooks corpus query top_k).filter
          (fun m => decide (m.relevance_score = s)))
        ((scoredCandidates corpus query).filter
          (fun m => decide (m.relevance_score = s)))) := by
  by_cases hemp : corpus.isEmpty
  · refine ⟨?_, ?_, ?_, ?_⟩ <;> simp [search_runbooks, hemp]
  · have hopen : search_runbooks corpus query top_k
        = ((scoredCandidates corpus query).mergeSort scoreGe).take top_k := by
      simp [search_runbooks, hemp]
    have hmemc : ∀ m ∈ search_runbooks corpus query top_k,
        m ∈ scoredCandidates corpus query := by
      intro m hm
      rw [hopen] at hm
      exact List.mem_mergeSort.mp (List.take_subset _ _ hm)
    refine ⟨?_, ?_, ?_, ?_⟩
    · rw [hopen]; exact List.length_take_le _ _
    · rw [hopen]
      have hs := List.sorted_mergeSort scoreGe_trans scoreGe_total
        (scoredCandidates corpus query)
      exact (hs.imp (fun hab => by simpa [scoreGe, decide_eq_true_eq] using hab)).sublist
        (List.take_sublist _ _)
    · intro m hm
      obtain ⟨rb, hrb, hif⟩ := List.mem_filterMap.mp (hmemc m hm)
      by_cases hpos : 0 < overlapCount query rb
      · rw [if_pos hpos] at hif
        have hmeq : m = mkMatch query rb := (Option.some.inj hif).symm
        have hlen1 : 1 ≤ (queryWords query).length := by
          obtain ⟨w, hw, -⟩ := List.countP_pos_iff.mp hpos
          exact List.length_pos.mpr (List.ne_nil_of_mem hw)
        have hmax : ((queryWords query).length : ℚ) ⊔ 1
            = ((queryWords query).length : ℚ) :=
          max_eq_left (by exact_mod_cast hlen1)
        have hscore : m.relevance_score
            = min ((overlapCount query rb : ℚ) / ((queryWords query).length : ℚ)) 1 := by
          rw [hmeq]; simp only [mkMatch]; rw [hmax]
        refine ⟨rb, hrb, hpos, hmeq, hscore, ?_⟩
        rw [hscore]
        refine lt_min ?_ one_pos
        refine div_pos ?_ ?_
        · exact_mod_cast hpos
        · exact_mod_cast hlen1
      · rw [if_neg hpos] at hif; cases hif
    · intro s
      have hstable := filter_mergeSort_stable scoreGe
        (fun m => decide (m.relevance_score = s)) scoreGe_trans scoreGe_total
        (fun a b ha hb => by
          have ha' := of_decide_eq_true ha
          have hb' := of_decide_eq_true hb
          simp [scoreGe, ha', hb'])
        (scoredCandidates corpus query)
      rw [hopen, ← hstable]
      exact (List.take_sublist _ _).filter _

/-- Witness for C7 on a one-document corpus matched by the query: the
returned entry is the document's match record. -/
theorem c7_witness :
    mkMatch "OOMKilled memory" (mkRunbook "oom.md" "# OOMKilled Runbook\nfix memory limit")
      ∈ search_runbooks [mkRunbook "oom.md" "# OOMKilled Runbook\nfix memory limit"]
          "OOMKilled memory" 3 ∧
    ∃ rb ∈ [mkRunbook "oom.md" "# OOMKilled Runbook\nfix memory limit"],
      0 < overlapCount "OOMKilled memory" rb ∧
      mkMatch "OOMKilled memory" (mkRunbook "oom.md" "# OOMKilled Runbook\nfix memory limit")
        = mkMatch "OOMKilled memory" rb ∧
      (mkMatch "OOMKilled memory"
          (mkRunbook "oom.md" "# OOMKilled Runbook\nfix memory limit")).relevance_score
        = min ((overlapCount "OOMKilled memory" rb : ℚ)
            / ((queryWords "OOMKilled memory").length : ℚ)) 1 ∧
      0 < (mkMatch "OOMKilled memory"
          (mkRunbook "oom.md" "# OOMKilled Runbook\nfix memory limit")).relevance_score := by
  have hcands : scoredCandidates [mkRunbook "oom.md" "# OOMKilled Runbook\nfix memory limit"]
      "OOMKilled memory"
      = [mkMatch "OOMKilled memory" (mkRunbook "oom.md" "# OOMKilled Runbook\nfix memory limit")] := by
    simp only [scoredCandidates, List.filterMap]
    rw [if_pos (by decide)]
  have hmem : mkMatch "OOMKilled memory" (mkRunbook "oom.md" "# OOMKilled Runbook\nfix memory limit")
      ∈ search_runbooks [mkRunbook "oom.md" "# OOMKilled Runbook\nfix memory limit"]
          "OOMKilled memory" 3 := by
    simp [search_runbooks, hcands]
  exact ⟨hmem,
    (c7_search_spec [mkRunbook "oom.md" "# OOMKilled Runbook\nfix memory limit"]
      "OOMKilled memory" 3).2.2.1 _ hmem⟩

/-! ## C3 -/

/-- C3: when the reasoning-engine invocation raises, `analyze_devops_issue`
returns the deterministic fallback record: fixed root-cause sentence,
severity/category from the first classification (else MEDIUM/Unknown),
an explanation naming the failure cause and embedding the dumped
classification list, exactly one fix command, exactly one prevention
tip, the matched runbook filenames, and a root cause worded differently
from every mock outcome. -/
theorem c3_fallback_on_invocation_error (corpus : List Runbook) (ctx : String)
    (cs : List Classification) (e : String) :
    analyze_devops_issue corpus ctx cs true (Except.error e)
      = fallbackResponse e cs (search_runbooks corpus ctx 3) ∧
    getField (analyze_devops_issue corpus ctx cs true (Except.error e)) "root_cause"
      = some (Json.str "LLM analysis failed — see pre-classified errors below") ∧
    getField (analyze_devops_issue corpus ctx cs true (Except.error e)) "severity"
      = some (Json.str (match cs with | [] => "MEDIUM" | c :: _ => c.severity)) ∧
    getField (analyze_devops_issue corpus ctx cs true (Except.error e)) "error_category"
      = some (Json.str (match cs with | [] => "Unknown" | c :: _ => c.category)) ∧
    getField (analyze_devops_issue corpus ctx cs true (Except.error e)) "explanation"
      = some (Json.str ("The AI model could not be reached (" ++ e
          ++ "). However, pattern-based analysis detected: " ++ pyDumpsCls cs)) ∧
    (∃ cmd, getField (analyze_devops_issue corpus ctx cs true (Except.error e))
        "fix_commands" = some (Json.arr [cmd])) ∧
    (∃ tip, getField (analyze_devops_issue corpus ctx cs true (Except.error e))
        "prevention_tips" = some (Json.arr [tip])) ∧
    getField (analyze_devops_issue corpus ctx cs true (Except.error e)) "related_runbooks"
      = some (Json.arr ((search_runbooks corpus ctx 3).map (fun rb => Json.str rb.filename))) ∧
    (∀ (ctx' : String) (cs' : List Classification) (rbs' : List RunbookMatch),
      getField (analyze_devops_issue corpus ctx cs true (Except.error e)) "root_cause"
        ≠ getField (mockResponse ctx' cs' rbs') "root_cause") := by
  refine ⟨rfl, rfl, ?_, ?_, rfl, ⟨_, rfl⟩, ⟨_, rfl⟩, rfl, ?_⟩
  · cases cs <;> rfl
  · cases cs <;> rfl
  · intro ctx' cs' rbs' h
    have hmock : getField (mockResponse ctx' cs' rbs') "root_cause"
        = some (Json.str ("[MOCK] Detected " ++ headCategory cs' ++ " error pattern")) := rfl
    rw [hmock] at h
    have hroot : getField (analyze_devops_issue corpus ctx cs true (Except.error e))
        "root_cause"
        = some (Json.str "LLM analysis failed — see pre-classified errors below") := rfl
    rw [hroot] at h
    injection h with h1
    injection h1 with h2
    have h3 : (some 'L' : Option Char) = some '[' := congrArg (fun s => s.data.head?) h2
    exact absurd h3 (by decide)

/-! ## C5 -/

/-- C5: with no credential configured, `analyze_devops_issue` returns the
deterministic mock record: severity/category from the first
classification (else MEDIUM/Unknown), an explanation echoing the first
500 characters of the input and the dumped classification list, two fix
commands, two prevention tips, and the matched runbook filenames. -/
theorem c5_mock_when_no_credential (corpus : List Runbook) (ctx : String)
    (cs : List Classification) (reply : Except String String) :
    analyze_devops_issue corpus ctx cs false reply
      = mockResponse ctx cs (search_runbooks corpus ctx 3) ∧
    getField (analyze_devops_issue corpus ctx cs false reply) "severity"
      = some (Json.str (match cs with | [] => "MEDIUM" | c :: _ => c.severity)) ∧
    getField (analyze_devops_issue corpus ctx cs false reply) "error_category"
      = some (Json.str (match cs with | [] => "Unknown" | c :: _ => c.category)) ∧
    getField (analyze_devops_issue corpus ctx cs false reply) "root_cause"
      = some (Json.str ("[MOCK] Detected "
          ++ (match cs with | [] => "Unknown" | c :: _ => c.category) ++ " error pattern")) ∧
    getField (analyze_devops_issue corpus ctx cs false reply) "explanation"
      = some (Json.str ("[MOCK MODE — No GOOGLE_API_KEY set]\nDetected error patterns: "
          ++ pyDumpsClsIndent2 cs ++ "\n\nOriginal error:\n" ++ strTake ctx 500)) ∧
    (∃ l, getField (analyze_devops_issue corpus ctx cs false reply) "fix_commands"
        = some (Json.arr l) ∧ 2 ≤ l.length) ∧
    (∃ l, getField (analyze_devops_issue corpus ctx cs false reply) "prevention_tips"
        = some (Json.arr l) ∧ 2 ≤ l.length) ∧
    getField (analyze_devops_issue corpus ctx cs false reply) "related_runbooks"
      = some (Json.arr ((search_runbooks corpus ctx 3).map (fun rb => Json.str rb.filename))) := by
  refine ⟨rfl, ?_, ?_, ?_, rfl, ⟨_, rfl, by decide⟩, ⟨_, rfl, by decide⟩, rfl⟩
  · cases cs <;> rfl
  · cases cs <;> rfl
  · cases cs <;> rfl

/-! ## C4 -/

/-- C4: when the cleaned reply does not decode as JSON, the normalizer
returns (without raising) the fixed-shape record: root_cause "See
explanation", severity MEDIUM, category Unknown, explanation the full
raw reply, empty command/tip lists, and the matched filenames. -/
theorem c4_parse_failure_record (raw : String) (rbs : List RunbookMatch)
    (h : jsonDecode (cleanResponse raw) = none) :
    parseLLMResponse raw rbs = Except.ok (jsonErrorRecord raw rbs) ∧
    getField (jsonErrorRecord raw rbs) "root_cause" = some (Json.str "See explanation") ∧
    getField (jsonErrorRecord raw rbs) "severity" = some (Json.str "MEDIUM") ∧
    getField (jsonErrorRecord raw rbs) "error_category" = some (Json.str "Unknown") ∧
    getField (jsonErrorRecord raw rbs) "explanation" = some (Json.str raw) ∧
    getField (jsonErrorRecord raw rbs) "fix_commands" = some (Json.arr []) ∧
    getField (jsonErrorRecord raw rbs) "prevention_tips" = some (Json.arr []) ∧
    getField (jsonErrorRecord raw rbs) "related_runbooks"
      = some (Json.arr (rbs.map (fun rb => Json.str rb.filename))) := by
  refine ⟨?_, rfl, rfl, rfl, rfl, rfl, rfl, rfl⟩
  unfold parseLLMResponse
  rw [h]

/-- Witness for C4 at a non-JSON reply over a one-match runbook list. -/
theorem c4_witness :
    jsonDecode (cleanResponse "I cannot analyze this error.") = none ∧
    parseLLMResponse "I cannot analyze this error."
        [⟨"OOMKilled Runbook", "oomkilled.md", 1, "excerpt"⟩]
      = Except.ok (jsonErrorRecord "I cannot analyze this error."
          [⟨"OOMKilled Runbook", "oomkilled.md", 1, "excerpt"⟩]) :=
  ⟨rfl, (c4_parse_failure_record "I cannot analyze this error."
      [⟨"OOMKilled Runbook", "oomkilled.md", 1, "excerpt"⟩] rfl).1⟩

/-! ## C10 -/

/-- C10: when the cleaned reply decodes as JSON but not as an object, the
normalizer does not return the malformed-reply record: the default
backfilling raises (modelled as `Except.error` with the
`AttributeError` text) and the outer handler makes `analyze_devops_issue`
return the invocation-failure fallback record, whose root cause is the
"LLM analysis failed" sentence and not "See explanation". -/
theorem c10_nonobject_reply_falls_back (corpus : List Runbook) (ctx : String)
    (cs : List Classification) (reply : String) (v : Json)
    (h1 : jsonDecode (cleanResponse reply) = some v)
    (h2 : ∀ kvs, v ≠ Json.obj kvs) :
    parseLLMResponse reply (search_runbooks corpus ctx 3)
      = Except.error (attrErrMsg v) ∧
    analyze_devops_issue corpus ctx cs true (Except.ok reply)
      = fallbackResponse (attrErrMsg v) cs (search_runbooks corpus ctx 3) ∧
    getField (analyze_devops_issue corpus ctx cs true (Except.ok reply)) "root_cause"
      = some (Json.str "LLM analysis failed — see pre-classified errors below") ∧
    getField (analyze_devops_issue corpus ctx cs true (Except.ok reply)) "root_cause"
      ≠ some (Json.str "See explanation") := by
  have hparse : parseLLMResponse reply (search_runbooks corpus ctx 3)
      = Except.error (attrErrMsg v) := by
    unfold parseLLMResponse
    rw [h1]
    cases v with
    | obj kvs => exact absurd rfl (h2 kvs)
    | null => rfl
    | bool b => rfl
    | num lx => rfl
    | str s => rfl
    | arr items => rfl
  have hana : analyze_devops_issue corpus ctx cs true (Except.ok reply)
      = fallbackResponse (attrErrMsg v) cs (search_runbooks corpus ctx 3) := by
    have hred : analyze_devops_issue corpus ctx cs true (Except.ok reply)
        = (match parseLLMResponse reply (search_runbooks corpus ctx 3) with
          | Except.ok r => r
          | Except.error e => fallbackResponse e cs (search_runbooks corpus ctx 3)) := rfl
    rw [hred, hparse]
  refine ⟨hparse, hana, ?_, ?_⟩
  · rw [hana]; rfl
  · rw [hana]
    intro h
    injection h with ha
    injection ha with hb
    exact absurd hb (by decide)

/-- Witness for C10 at the JSON-array reply "[1, 2]". -/
theorem c10_witness :
    jsonDecode (cleanResponse "[1, 2]") = some (Json.arr [Json.num "1", Json.num "2"]) ∧
    analyze_devops_issue [] "pod crashed" [] true (Except.ok "[1, 2]")
      = fallbackResponse (attrErrMsg (Json.arr [Json.num "1", Json.num "2"])) []
          (search_runbooks [] "pod crashed" 3) :=
  ⟨rfl, (c10_nonobject_reply_falls_back [] "pod crashed" [] "[1, 2]"
      (Json.arr [Json.num "1", Json.num "2"]) rfl
      (fun _ h => Json.noConfusion h)).2.1⟩

/-! ## C9 -/

/-- Python `content.split("\n")` on a character list. -/
def splitNl : List Char → List (List Char)
  | [] => [[]]
  | c :: cs =>
      if c = '\n' then [] :: splitNl cs
      else
        match splitNl cs with
        | h :: t => (c :: h) :: t
        | [] => [[c]]

/-- Formalisation of the spec wording for C9: the document's "first
non-empty content line with the leading heading-markup characters
stripped". -/
def specTitle (content : String) : String :=
  match (splitNl content.data).find? (fun l => !l.isEmpty) with
  | some l => pyStrip ⟨l.dropWhile (fun c => c = '#')⟩
  | none => ""

theorem splitNl_head (cs : List Char) :
    ∃ t, splitNl cs = cs.takeWhile (fun c => c ≠ '\n') :: t := by
  induction cs with
  | nil => exact ⟨[], rfl⟩
  | cons c cs ih =>
      by_cases hc : c = '\n'
      · subst hc
        exact ⟨splitNl cs, by simp [splitNl, List.takeWhile_cons]⟩
      · obtain ⟨t, ht⟩ := ih
        exact ⟨t, by simp [splitNl, hc, ht, List.takeWhile_cons]⟩

/-- C9 counterexample: a document whose first line is empty (content
starting with a newline) is stored with an empty title, not with the
spec's heading-stripped first non-empty line. -/
theorem c9_counterexample :
    (mkRunbook "runbook.md" "\n# OOMKilled Runbook").title = "" ∧
    specTitle "\n# OOMKilled Runbook" = "OOMKilled Runbook" ∧
    (mkRunbook "runbook.md" "\n# OOMKilled Runbook").title
      ≠ specTitle "\n# OOMKilled Runbook" := by
  refine ⟨rfl, by decide, by decide⟩

/-- C9 (amended): every loaded runbook's stored title is its first line —
even when that line is empty — with all '#' characters removed and
surrounding whitespace stripped; when the first line is non-empty and
contains '#' only as leading markup this coincides with the spec's
"first non-empty heading-stripped line". -/
theorem c9_title_amended (files : List (String × String)) (rb : Runbook)
    (hrb : rb ∈ load_runbooks files) :
    ∃ fn content, (fn, content) ∈ files ∧ rb = mkRunbook fn content ∧
      rb.title = pyStrip ⟨(firstLine content).data.filter (fun c => c ≠ '#')⟩ ∧
      ((firstLine content).data ≠ [] →
        '#' ∉ (firstLine content).data.dropWhile (fun c => c = '#') →
        rb.title = specTitle content) := by
  obtain ⟨pr, hpr, hrb'⟩ := List.mem_map.mp hrb
  refine ⟨pr.1, pr.2, hpr, hrb'.symm, by rw [hrb'.symm]; rfl, ?_⟩
  intro h1 h2
  obtain ⟨t, ht⟩ := splitNl_head pr.2.data
  have hfl : (firstLine pr.2).data = pr.2.data.takeWhile (fun c => c ≠ '\n') := rfl
  have hfind : (splitNl pr.2.data).find? (fun l => !l.isEmpty)
      = some ((firstLine pr.2).data) := by
    rw [ht, List.find?_cons_of_pos]
    · rw [hfl]
    · rw [← hfl]
      simpa [List.isEmpty_iff] using h1
  have hsplit : (firstLine pr.2).data
      = (firstLine pr.2).data.takeWhile (fun c => c = '#')
        ++ (firstLine pr.2).data.dropWhile (fun c => c = '#') :=
    (List.takeWhile_append_dropWhile _ _).symm
  have hfilter : (firstLine pr.2).data.filter (fun c => c ≠ '#')
      = (firstLine pr.2).data.dropWhile (fun c => c = '#') := by
    conv => left; rw [hsplit]
    rw [List.filter_append]
    have hl : ((firstLine pr.2).data.takeWhile (fun c => c = '#')).filter
        (fun c => c ≠ '#') = [] := by
      rw [List.filter_eq_nil_iff]
      intro a ha
      have := List.mem_takeWhile_imp ha
      simp only [decide_eq_true_eq] at this
      simp [this]
    have hr : ((firstLine pr.2).data.dropWhile (fun c => c = '#')).filter
        (fun c => c ≠ '#')
        = (firstLine pr.2).data.dropWhile (fun c => c = '#') := by
      rw [List.filter_eq_self]
      intro a ha
      simp only [decide_eq_true_eq]
      intro haeq
      exact h2 (haeq ▸ ha)
    rw [hl, hr, List.nil_append]
  rw [hrb'.symm]
  show pyStrip ⟨(firstLine pr.2).data.filter (fun c => c ≠ '#')⟩ = specTitle pr.2
  rw [specTitle, hfind, hfilter]

/-- Witness for C9 at a well-formed heading document: the stored and
spec titles agree and equal "OOMKilled Runbook". -/
theorem c9_witness :
    mkRunbook "oom.md" "# OOMKilled Runbook\nSteps"
      ∈ load_runbooks [("oom.md", "# OOMKilled Runbook\nSteps")] ∧
    (∃ fn content, (fn, content) ∈ [("oom.md", "# OOMKilled Runbook\nSteps")] ∧
      mkRunbook "oom.md" "# OOMKilled Runbook\nSteps" = mkRunbook fn content ∧
      (mkRunbook "oom.md" "# OOMKilled Runbook\nSteps").title
        = pyStrip ⟨(firstLine content).data.filter (fun c => c ≠ '#')⟩ ∧
      ((firstLine content).data ≠ [] →
        '#' ∉ (firstLine content).data.dropWhile (fun c => c = '#') →
        (mkRunbook "oom.md" "# OOMKilled Runbook\nSteps").title = specTitle content)) ∧
    (mkRunbook "oom.md" "# OOMKilled Runbook\nSteps").title
      = specTitle "# OOMKilled Runbook\nSteps" ∧
    (mkRunbook "oom.md" "# OOMKilled Runbook\nSteps").title = "OOMKilled Runbook" :=
  ⟨by decide,
   c9_title_amended [("oom.md", "# OOMKilled Runbook\nSteps")] _ (by decide),
   by decide, by decide⟩

/-! ## C6 -/

theorem stripL_eq (l : List Char) :
    stripL l = List.rdropWhile pyIsSpace (l.dropWhile pyIsSpace) := rfl

theorem stripL_idem (l : List Char) : stripL (stripL l) = stripL l := by
  rw [stripL_eq, stripL_eq]
  have hidem : (l.dropWhile pyIsSpace).dropWhile pyIsSpace = l.dropWhile pyIsSpace :=
    List.dropWhile_idempotent pyIsSpace l
  have hdw : (List.rdropWhile pyIsSpace (l.dropWhile pyIsSpace)).dropWhile pyIsSpace
      = List.rdropWhile pyIsSpace (l.dropWhile pyIsSpace) := by
    obtain ⟨t, ht⟩ := List.rdropWhile_prefix pyIsSpace (l.dropWhile pyIsSpace)
    have happ := congrArg (List.dropWhile pyIsSpace) ht
    rw [List.dropWhile_append, hidem] at happ
    by_cases hemp :
        ((List.rdropWhile pyIsSpace (l.dropWhile pyIsSpace)).dropWhile pyIsSpace).isEmpty
    · rw [if_pos hemp] at happ
      have hle : (t.dropWhile pyIsSpace).length ≤ t.length :=
        (List.dropWhile_sublist pyIsSpace).length_le
      have hlen := congrArg List.length happ
      have hlen2 := congrArg List.length ht
      rw [List.length_append] at hlen2
      have hm0 : (List.rdropWhile pyIsSpace (l.dropWhile pyIsSpace)).length = 0 := by omega
      rw [List.length_eq_zero.mp hm0]
      rfl
    · rw [if_neg hemp] at happ
      exact List.append_cancel_right (happ.trans ht.symm)
  rw [hdw, List.rdropWhile_idempotent]

theorem leadsWith_append_self (a b : List Char) : leadsWith a (a ++ b) = true := by
  induction a with
  | nil => rfl
  | cons c cs ih => simp [leadsWith, ih]

theorem leadsWith_mono (a b cs : List Char) (h : leadsWith (a ++ b) cs = true) :
    leadsWith a cs = true := by
  induction a generalizing cs with
  | nil => rfl
  | cons c a' ih =>
      cases cs with
      | nil => simp [leadsWith] at h
      | cons d ds =>
          simp only [List.cons_append, leadsWith, Bool.and_eq_true] at h ⊢
          exact ⟨h.1, ih ds h.2⟩

theorem tailsWith_append_self (s y : List Char) : tailsWith s (y ++ s) = true := by
  unfold tailsWith
  rw [List.reverse_append]
  exact leadsWith_append_self s.reverse y.reverse

/-- The cleanup is the identity (modulo stripping) on a reply that does
not look fence-wrapped. -/
theorem cleanL_plain (cs : List Char)
    (h1 : leadsWith "```".data (stripL cs) = false)
    (h2 : tailsWith "```".data (stripL cs) = false) :
    cleanL cs = stripL cs := by
  have hjson : leadsWith "```json".data (stripL cs) = false := by
    cases hlw : leadsWith "```json".data (stripL cs)
    · rfl
    · have := leadsWith_mono "```".data "json".data (stripL cs) hlw
      rw [h1] at this
      cases this
  simp only [cleanL, hjson, h1, h2, Bool.false_eq_true, if_false]
  exact stripL_idem cs

/-- Stripping eats a leading newline. -/
theorem stripL_cons_nl (x : List Char) : stripL ('\n' :: x) = stripL x := by
  rw [stripL_eq, stripL_eq]
  rfl

/-- Stripping eats a trailing newline. -/
theorem stripL_concat_nl (x : List Char) : stripL (x ++ ['\n']) = stripL x := by
  rw [stripL_eq, stripL_eq, List.dropWhile_append]
  by_cases hemp : (x.dropWhile pyIsSpace).isEmpty
  · rw [if_pos hemp]
    rw [List.isEmpty_iff.mp hemp]
    rfl
  · rw [if_neg hemp]
    exact List.rdropWhile_concat_pos pyIsSpace _ '\n' rfl

/-- The cleanup unwraps a "```json" fence down to the stripped payload. -/
theorem cleanL_wrap (p : List Char) :
    cleanL ("```json\n".data ++ (p ++ "\n```".data)) = stripL p := by
  have hstrip1 : stripL ("```json\n".data ++ (p ++ "\n```".data))
      = "```json\n".data ++ (p ++ "\n```".data) := by
    rw [stripL_eq]
    have hdw : ("```json\n".data ++ (p ++ "\n```".data)).dropWhile pyIsSpace
        = "```json\n".data ++ (p ++ "\n```".data) := rfl
    rw [hdw]
    have hsplit : "```json\n".data ++ (p ++ "\n```".data)
        = ("```json\n".data ++ (p ++ "\n``".data)) ++ ['`'] := by
      simp [List.append_assoc]
    rw [hsplit]
    rw [List.rdropWhile_concat_neg pyIsSpace _ '`' (by decide)]
  have hjson : leadsWith "```json".data ("```json\n".data ++ (p ++ "\n```".data)) = true := rfl
  have hdrop : ("```json\n".data ++ (p ++ "\n```".data)).drop 7
      = '\n' :: (p ++ "\n```".data) := rfl
  have hnofence : leadsWith "```".data ('\n' :: (p ++ "\n```".data)) = false := rfl
  have hsplit2 : '\n' :: (p ++ "\n```".data)
      = (('\n' :: p) ++ ['\n']) ++ "```".data := by
    simp [List.append_assoc]
  have htail : tailsWith "```".data ('\n' :: (p ++ "\n```".data)) = true := by
    rw [hsplit2]
    exact tailsWith_append_self "```".data (('\n' :: p) ++ ['\n'])
  have hlen : (('\n' :: p) ++ ['\n']).length
      = ((('\n' :: p) ++ ['\n']) ++ "```".data).length - 3 := by
    simp [List.length_append]
  have htake : ('\n' :: (p ++ "\n```".data)).take
        (('\n' :: (p ++ "\n```".data)).length - 3)
      = ('\n' :: p) ++ ['\n'] := by
    conv => left; rw [hsplit2]
    exact List.take_left' hlen
  simp only [cleanL, hstrip1, hjson, if_true, hdrop, hnofence, Bool.false_eq_true,
    if_false, htail, htake]
  rw [List.cons_append, stripL_cons_nl, stripL_concat_nl]

theorem setdefaultKV_of_hasKey (kvs : List (String × Json)) (k : String) (v : Json)
    (h : hasKey kvs k = true) : setdefaultKV kvs k v = kvs := by
  unfold setdefaultKV
  rw [if_pos h]

theorem hasKey_setdefaultKV (kvs : List (String × Json)) (k' : String) (v : Json)
    (k : String) (h : hasKey kvs k = true) :
    hasKey (setdefaultKV kvs k' v) k = true := by
  unfold setdefaultKV
  by_cases hk : hasKey kvs k' = true
  · rw [if_pos hk]; exact h
  · rw [if_neg hk]
    unfold hasKey at h ⊢
    rw [List.any_append, h]
    rfl

/-- When the decoded object already carries an "explanation" key, the
default backfilling never consults the raw reply text. -/
theorem applyDefaults_raw_irrelevant (kvs : List (String × Json))
    (h : hasKey kvs "explanation" = true) (raw raw' : String)
    (rbs : List RunbookMatch) :
    applyDefaults raw rbs kvs = applyDefaults raw' rbs kvs := by
  simp only [applyDefaults]
  have h3 : hasKey
      (setdefaultKV (setdefaultKV
          (setdefaultKV kvs "root_cause" (Json.str "Unable to determine root cause"))
          "severity" (Json.str "MEDIUM")) "error_category" (Json.str "Unknown"))
      "explanation" = true :=
    hasKey_setdefaultKV _ _ _ _ (hasKey_setdefaultKV _ _ _ _ (hasKey_setdefaultKV _ _ _ _ h))
  rw [setdefaultKV_of_hasKey _ _ _ h3, setdefaultKV_of_hasKey _ _ _ h3]

/-- C6 counterexample: the claim fails as stated.  With the language tag
"yaml" the cleanup still strips the fences, the leftover tag breaks the
JSON decode, and the wrapped reply normalizes to the malformed-reply
record while the unwrapped payload normalizes to a backfilled object:
different records (their root_cause fields differ). -/
theorem c6_counterexample :
    parseLLMResponse "```yaml\n\x7b\x7d\n```" [] ≠ parseLLMResponse "\x7b\x7d" [] := by
  intro h
  have hL : rootCauseOf (parseLLMResponse "```yaml\n\x7b\x7d\n```" [])
      = some "See explanation" := rfl
  have hR : rootCauseOf (parseLLMResponse "\x7b\x7d" [])
      = some "Unable to determine root cause" := rfl
  rw [h, hR] at hL
  injection hL with h1
  exact absurd h1 (by decide)

/-- C6 (amended): wrapping a reply in a "```json" code fence yields the
same parsed record as the unwrapped payload, provided the stripped
payload does not itself start or end with a fence and decodes to a JSON
object that already contains an "explanation" key.  (With another
language tag, or when the object lacks "explanation" — whose backfilled
default embeds the raw reply, fences included — the records can
differ, as the counterexample shows.) -/
theorem c6_fence_roundtrip (p : String) (rbs : List RunbookMatch)
    (kvs : List (String × Json))
    (h1 : leadsWith "```".data (stripL p.data) = false)
    (h2 : tailsWith "```".data (stripL p.data) = false)
    (h3 : jsonDecode (pyStrip p) = some (Json.obj kvs))
    (h4 : hasKey kvs "explanation" = true) :
    parseLLMResponse ("```json\n" ++ p ++ "\n```") rbs = parseLLMResponse p rbs := by
  have hwrapdata : ("```json\n" ++ p ++ "\n```").data
      = "```json\n".data ++ (p.data ++ "\n```".data) := by
    simp [List.append_assoc]
  have hwrap : cleanResponse ("```json\n" ++ p ++ "\n```") = pyStrip p := by
    unfold cleanResponse
    rw [hwrapdata, cleanL_wrap]
    rfl
  have hplain : cleanResponse p = pyStrip p := by
    unfold cleanResponse
    rw [cleanL_plain p.data h1 h2]
    rfl
  unfold parseLLMResponse
  rw [hwrap, hplain, h3]
  show Except.ok (Json.obj (applyDefaults ("```json\n" ++ p ++ "\n```") rbs kvs))
      = Except.ok (Json.obj (applyDefaults p rbs kvs))
  rw [applyDefaults_raw_irrelevant kvs h4 ("```json\n" ++ p ++ "\n```") p rbs]

/-- Witness for C6 at the object payload containing an explanation. -/
theorem c6_witness :
    leadsWith "```".data (stripL "\x7b\"explanation\": \"done\"\x7d".data) = false ∧
    tailsWith "```".data (stripL "\x7b\"explanation\": \"done\"\x7d".data) = false ∧
    jsonDecode (pyStrip "\x7b\"explanation\": \"done\"\x7d")
      = some (Json.obj [("explanation", Json.str "done")]) ∧
    hasKey [("explanation", Json.str "done")] "explanation" = true ∧
    parseLLMResponse ("```json\n" ++ "\x7b\"explanation\": \"done\"\x7d" ++ "\n```") []
      = parseLLMResponse "\x7b\"explanation\": \"done\"\x7d" [] :=
  ⟨rfl, rfl, rfl, rfl,
   c6_fence_roundtrip "\x7b\"explanation\": \"done\"\x7d" []
     [("explanation", Json.str "done")] rfl rfl rfl rfl⟩
